import Mathlib

/-!
Shallow embedding of `examples/2-routing/main.go` from the `readyset`
repository: an in-memory todo-item collection served over a REST-style
CRUD surface.  Each Go handler becomes a pure Lean function from its
request data and the current collection to a response and the new
collection.  Machine integers are modelled as `Int` with the explicit
64-bit range check that `strconv.Atoi` performs.
-/

namespace ReadySet

/-- `type TodoItem struct { Content string; Done bool }` -/
structure TodoItem where
  Content : String
  Done : Bool
deriving DecidableEq, Repr

/-- Default value used with `List.getD` at indices the handlers have
already bounds-checked (mirrors Go's guarded `todoItems[id]`). -/
def defaultItem : TodoItem := ⟨"", false⟩

/-! ### `strconv` helpers

`strconv.Atoi(s)` is `strconv.ParseInt(s, 10, 0)` on a 64-bit platform:
an optional single `+`/`-` sign followed by one or more decimal digits,
rejected when empty, when any non-digit appears, or when the value
falls outside the signed 64-bit range. -/

/-- Decimal value of a digit string (most significant first). -/
def digitsToNat (cs : List Char) : Nat :=
  cs.foldl (fun a c => a * 10 + (c.toNat - 48)) 0

/-- A non-empty run of ASCII decimal digits. -/
def isDigits (cs : List Char) : Bool :=
  !cs.isEmpty && cs.all (fun c => c.isDigit)

/-- Parse a non-empty digit run, `none` on empty or non-digit input. -/
def parseDigits (cs : List Char) : Option Nat :=
  if isDigits cs then some (digitsToNat cs) else none

def int64Max : Int := 2 ^ 63 - 1

def int64Min : Int := -(2 ^ 63)

/-- `strconv.Atoi`: decimal signed 64-bit integer parsing.  `none`
stands for a non-nil `error` (syntax or range). -/
def Atoi (s : String) : Option Int :=
  match s.toList with
  | '+' :: rest =>
      (parseDigits rest).bind fun n =>
        if (n : Int) ≤ int64Max then some (n : Int) else none
  | '-' :: rest =>
      (parseDigits rest).bind fun n =>
        if int64Min ≤ -(n : Int) then some (-(n : Int)) else none
  | cs =>
      (parseDigits cs).bind fun n =>
        if (n : Int) ≤ int64Max then some (n : Int) else none

/-- `strconv.ParseBool`: accepts exactly the listed spellings. -/
def ParseBool (s : String) : Option Bool :=
  match s with
  | "1" | "t" | "T" | "TRUE" | "true" | "True" => some true
  | "0" | "f" | "F" | "FALSE" | "false" | "False" => some false
  | _ => none

/-! ### Requests and responses -/

/-- A parsed form body: ordered key/value pairs.  `r.ParseForm()`
failing is modelled by `Option` around this at each handler. -/
def Form := List (String × String)

/-- `r.FormValue(key)`: first value for the key, `""` when absent. -/
def FormValue (f : Form) (key : String) : String :=
  match f.find? (fun p => p.1 = key) with
  | some p => p.2
  | none => ""

/-- Response bodies the handlers write: nothing, plain text, or the
JSON encoding of one item / of the whole list. -/
inductive Body where
  | empty : Body
  | text : String → Body
  | jsonItem : TodoItem → Body
  | jsonList : List TodoItem → Body
deriving DecidableEq, Repr

/-- What a handler writes: status code, body, and the optional
`Location` header. -/
structure Response where
  status : Nat
  body : Body
  location : Option String
deriving DecidableEq, Repr

/-- In Go's `net/http`, the server never transmits a response body for
a HEAD request: anything the handler writes after the header is
discarded on the wire.  `isHead` is true for the HEAD route. -/
def wireBody (isHead : Bool) (r : Response) : Body :=
  if isHead then Body.empty else r.body

/-- `fmt.Sprintf("%d", n)`: decimal digits of `n`, no sign (the
handlers only format non-negative lengths). -/
def natChars (n : Nat) : List Char :=
  if h : n < 10 then [Char.ofNat (48 + n)]
  else natChars (n / 10) ++ [Char.ofNat (48 + n % 10)]
termination_by n
decreasing_by exact Nat.div_lt_self (by omega) (by omega)

def natStr (n : Nat) : String := ⟨natChars n⟩

/-- `fmt.Sprintf("%s/todo-item/%d", host, n)`. -/
def locationOf (host : String) (n : Nat) : String :=
  host ++ "/todo-item/" ++ natStr n

/-! ### Handlers

State is the global `todoItems` slice, threaded explicitly.  A handler
returns the `Response` it wrote together with the slice it leaves
behind. -/

/-- `GET /todo-item` (`getTodoItems`). -/
def getTodoItems (todoItems : List TodoItem) : Response :=
  ⟨200, Body.jsonList todoItems, none⟩

/-- `GET /todo-item/{id}` (`getTodoItem`). -/
def getTodoItem (idStr : String) (todoItems : List TodoItem) : Response :=
  match Atoi idStr with
  | none => ⟨400, Body.text "`id` must be of type int", none⟩
  | some id =>
    if id < 0 ∨ id > (todoItems.length : Int) - 1 then
      ⟨404, Body.text "`id` not found", none⟩
    else
      ⟨200, Body.jsonItem (todoItems.getD id.toNat defaultItem), none⟩

/-- `HEAD /todo-item/{id}` (`getTodoItemExists`). -/
def getTodoItemExists (idStr : String) (todoItems : List TodoItem) : Response :=
  match Atoi idStr with
  | none => ⟨400, Body.text "`id` must be of type int", none⟩
  | some id =>
    if id < 0 ∨ id > (todoItems.length : Int) - 1 then
      ⟨404, Body.text "`id` not found", none⟩
    else
      ⟨200, Body.empty, none⟩

/-- `POST /todo-item` (`createTodoItem`).  `form = none` models a
failing `r.ParseForm()`; `host` is `r.URL.Host`. -/
def createTodoItem (host : String) (form : Option Form)
    (todoItems : List TodoItem) : Response × List TodoItem :=
  match form with
  | none => (⟨400, Body.text "invalid form", none⟩, todoItems)
  | some f =>
    let content := FormValue f "content"
    match ParseBool (FormValue f "done") with
    | none => (⟨400, Body.text "`done` must be of type bool", none⟩, todoItems)
    | some done =>
      let todoItems' := todoItems ++ [⟨content, done⟩]
      (⟨201, Body.empty, some (locationOf host (todoItems'.length - 1))⟩,
        todoItems')

/-- `PUT /todo-item/{id}` (`replaceTodoItem`). -/
def replaceTodoItem (host : String) (idStr : String) (form : Option Form)
    (todoItems : List TodoItem) : Response × List TodoItem :=
  match Atoi idStr with
  | none => (⟨400, Body.text "`id` must be of type int", none⟩, todoItems)
  | some id =>
    if id < 0 ∨ id > (todoItems.length : Int) - 1 then
      (⟨404, Body.text "`id` not found", none⟩, todoItems)
    else
      match form with
      | none => (⟨400, Body.text "invalid form", none⟩, todoItems)
      | some f =>
        let content := FormValue f "content"
        match ParseBool (FormValue f "done") with
        | none =>
            (⟨400, Body.text "`done` must be of type bool", none⟩, todoItems)
        | some done =>
          let todoItems' := todoItems.set id.toNat ⟨content, done⟩
          (⟨200, Body.empty, some (locationOf host (todoItems'.length - 1))⟩,
            todoItems')

/-- `PATCH /todo-item/{id}` (`updateTodoItem`).  Note the source
assigns `todoItems[id].Content` before validating `done`. -/
def updateTodoItem (idStr : String) (form : Option Form)
    (todoItems : List TodoItem) : Response × List TodoItem :=
  match Atoi idStr with
  | none => (⟨400, Body.text "`id` must be of type int", none⟩, todoItems)
  | some id =>
    if id < 0 ∨ id > (todoItems.length : Int) - 1 then
      (⟨404, Body.text "`id` not found", none⟩, todoItems)
    else
      match form with
      | none => (⟨400, Body.text "invalid form", none⟩, todoItems)
      | some f =>
        let content := FormValue f "content"
        let todoItems1 :=
          if content ≠ "" then
            todoItems.set id.toNat
              { todoItems.getD id.toNat defaultItem with Content := content }
          else todoItems
        let doneStr := FormValue f "done"
        if doneStr ≠ "" then
          match ParseBool doneStr with
          | none =>
              (⟨400, Body.text "`done` must be of type bool", none⟩, todoItems1)
          | some done =>
              (⟨200, Body.empty, none⟩,
                todoItems1.set id.toNat
                  { todoItems1.getD id.toNat defaultItem with Done := done })
        else
          (⟨200, Body.empty, none⟩, todoItems1)

/-- `DELETE /todo-item/{id}` (`deleteTodoItem`):
`append(todoItems[:id], todoItems[id+1:]...)`. -/
def deleteTodoItem (idStr : String) (todoItems : List TodoItem) :
    Response × List TodoItem :=
  match Atoi idStr with
  | none => (⟨400, Body.text "`id` must be of type int", none⟩, todoItems)
  | some id =>
    if id < 0 ∨ id > (todoItems.length : Int) - 1 then
      (⟨404, Body.text "`id` not found", none⟩, todoItems)
    else
      (⟨200, Body.empty, none⟩,
        todoItems.take id.toNat ++ todoItems.drop (id.toNat + 1))

/-! ### Helper lemmas -/

theorem digitsToNat_append_singleton (cs : List Char) (c : Char) :
    digitsToNat (cs ++ [c]) = digitsToNat cs * 10 + (c.toNat - 48) := by
  simp [digitsToNat, List.foldl_append]

theorem toNat_digitChar (n : Nat) (h : n < 10) :
    (Char.ofNat (48 + n)).toNat = 48 + n := by
  interval_cases n <;> decide

/-- Reading the decimal digits of `n` back gives `n`: the formatter is
left-invertible, hence injective. -/
theorem digitsToNat_natChars (n : Nat) : digitsToNat (natChars n) = n := by
  induction n using Nat.strong_induction_on with
  | _ n ih =>
    rw [natChars]
    split
    · next h =>
      simp [digitsToNat, toNat_digitChar n h]
    · next h =>
      rw [digitsToNat_append_singleton,
        ih (n / 10) (Nat.div_lt_self (by omega) (by omega)),
        toNat_digitChar (n % 10) (Nat.mod_lt _ (by omega))]
      omega

theorem natStr_injective {a b : Nat} (h : natStr a = natStr b) : a = b := by
  have hc : natChars a = natChars b := congrArg String.data h
  have := digitsToNat_natChars a
  rw [hc, digitsToNat_natChars] at this
  omega

/-- Two `Location` headers built from the same host agree exactly when
their path indices agree. -/
theorem locationOf_inj {host : String} {a b : Nat}
    (h : locationOf host a = locationOf host b) : a = b := by
  have hd := congrArg String.data h
  simp only [locationOf, String.data_append] at hd
  exact natStr_injective (String.ext (by simpa using hd))

theorem getD_eq_getElem? (l : List TodoItem) (n : Nat) (d : TodoItem) :
    l.getD n d = (l[n]?).getD d := by
  simp [List.getD]

/-! ### Claim theorems -/

/-- Claim C4: for every collection state and well-formed `content`/`done`
pair, Create appends the new item at index equal to the prior length,
responds 201 with a `Location` header referencing that index, and a
subsequent Read at that index returns the same pair. -/
theorem create_then_read (host idStr : String) (f : Form) (items : List TodoItem)
    (done : Bool)
    (hid : Atoi idStr = some (items.length : Int))
    (hdone : ParseBool (FormValue f "done") = some done) :
    (createTodoItem host (some f) items).1.status = 201 ∧
    (createTodoItem host (some f) items).1.location =
      some (locationOf host items.length) ∧
    (createTodoItem host (some f) items).2 =
      items ++ [⟨FormValue f "content", done⟩] ∧
    getTodoItem idStr (createTodoItem host (some f) items).2 =
      ⟨200, Body.jsonItem ⟨FormValue f "content", done⟩, none⟩ := by
  refine ⟨by simp [createTodoItem, hdone], by simp [createTodoItem, hdone],
    by simp [createTodoItem, hdone], ?_⟩
  simp only [createTodoItem, hdone, getTodoItem, hid]
  rw [if_neg (by simp)]
  have hn : ((items.length : Int)).toNat = items.length := by omega
  rw [hn, getD_eq_getElem?, List.getElem?_append_right (Nat.le_refl _)]
  simp

/-- Claim C4 witness: creating `buy milk`/`false` on the empty collection
and reading index 0 back. -/
theorem create_then_read_witness :
    (createTodoItem "h" (some [("content", "buy milk"), ("done", "false")])
        []).1.status = 201 ∧
    getTodoItem "0"
        (createTodoItem "h" (some [("content", "buy milk"), ("done", "false")])
          []).2 =
      ⟨200, Body.jsonItem ⟨"buy milk", false⟩, none⟩ := by
  have h := create_then_read "h" "0"
    [("content", "buy milk"), ("done", "false")] [] false (by decide) (by decide)
  exact ⟨h.1, by simpa using h.2.2.2⟩

/-- Claim C3: a successful Replace answers 200 and builds its `Location`
header from the post-operation collection length minus 1 (Create's
construction), not from the replaced `id`; when `id` is not the last
index the header names a different index than the one modified. -/
theorem replace_location_from_length (host idStr : String) (f : Form)
    (items : List TodoItem) (id : Int) (done : Bool)
    (hid : Atoi idStr = some id) (h0 : 0 ≤ id) (hlt : id.toNat < items.length)
    (hdone : ParseBool (FormValue f "done") = some done) :
    (replaceTodoItem host idStr (some f) items).1.status = 200 ∧
    (replaceTodoItem host idStr (some f) items).2.length = items.length ∧
    (replaceTodoItem host idStr (some f) items).1.location =
      some (locationOf host (items.length - 1)) ∧
    (id.toNat ≠ items.length - 1 →
      (replaceTodoItem host idStr (some f) items).1.location ≠
        some (locationOf host id.toNat)) := by
  have hcond : ¬(id < 0 ∨ id > (items.length : Int) - 1) := by omega
  refine ⟨by simp [replaceTodoItem, hid, hdone, if_neg hcond],
    by simp [replaceTodoItem, hid, hdone, if_neg hcond],
    by simp [replaceTodoItem, hid, hdone, if_neg hcond], ?_⟩
  intro hne hcontra
  simp only [replaceTodoItem, hid, hdone, if_neg hcond, List.length_set]
    at hcontra
  exact hne (locationOf_inj (Option.some.inj hcontra)).symm

/-- Claim C3 witness: replacing index 0 of a two-item collection points
the `Location` header at index 1. -/
theorem replace_location_from_length_witness :
    (replaceTodoItem "h" "0" (some [("done", "true")])
        [⟨"a", false⟩, ⟨"b", false⟩]).1.location =
      some (locationOf "h" 1) ∧
    (replaceTodoItem "h" "0" (some [("done", "true")])
        [⟨"a", false⟩, ⟨"b", false⟩]).1.location ≠
      some (locationOf "h" 0) := by
  have h := replace_location_from_length "h" "0" [("done", "true")]
    [⟨"a", false⟩, ⟨"b", false⟩] 0 true (by decide) (by decide) (by decide)
    (by decide)
  exact ⟨h.2.2.1, h.2.2.2 (by decide)⟩

/-- Claim C2: the Existence check with an integer id is status-only:
200 when the id is in range, 404 otherwise, with no body on the wire in
either case (Go's server discards response bodies of HEAD requests). -/
theorem head_status_only (idStr : String) (items : List TodoItem) (id : Int)
    (hid : Atoi idStr = some id) :
    (0 ≤ id ∧ id.toNat < items.length →
      getTodoItemExists idStr items = ⟨200, Body.empty, none⟩) ∧
    (id < 0 ∨ (items.length : Int) ≤ id →
      (getTodoItemExists idStr items).status = 404) ∧
    wireBody true (getTodoItemExists idStr items) = Body.empty := by
  refine ⟨?_, ?_, by simp [wireBody]⟩
  · rintro ⟨h0, hlt⟩
    simp [getTodoItemExists, hid,
      if_neg (show ¬(id < 0 ∨ id > (items.length : Int) - 1) by omega)]
  · intro h
    simp [getTodoItemExists, hid,
      if_pos (show id < 0 ∨ id > (items.length : Int) - 1 by omega)]

/-- Claim C2 witness: HEAD at index 0 of a one-item collection is a
bodyless 200; HEAD at index 1 is a 404 with an empty wire body. -/
theorem head_status_only_witness :
    getTodoItemExists "0" [⟨"a", true⟩] = ⟨200, Body.empty, none⟩ ∧
    (getTodoItemExists "1" [⟨"a", true⟩]).status = 404 ∧
    wireBody true (getTodoItemExists "1" [⟨"a", true⟩]) = Body.empty := by
  refine ⟨(head_status_only "0" [⟨"a", true⟩] 0 (by decide)).1 (by decide),
    (head_status_only "1" [⟨"a", true⟩] 1 (by decide)).2.1 (by decide),
    (head_status_only "1" [⟨"a", true⟩] 1 (by decide)).2.2⟩

/-- Claim C7: on any collection state — hence after any operation
history, including the empty collection — Read, HEAD, Update and Delete
at an integer index outside `[0, length)` answer 404, Read, Update and
Delete with body `id` not found, and mutate nothing. -/
theorem out_of_range_404 (idStr : String) (items : List TodoItem) (id : Int)
    (form : Option Form)
    (hid : Atoi idStr = some id) (hout : id < 0 ∨ (items.length : Int) ≤ id) :
    getTodoItem idStr items = ⟨404, Body.text "`id` not found", none⟩ ∧
    (getTodoItemExists idStr items).status = 404 ∧
    wireBody true (getTodoItemExists idStr items) = Body.empty ∧
    updateTodoItem idStr form items =
      (⟨404, Body.text "`id` not found", none⟩, items) ∧
    deleteTodoItem idStr items =
      (⟨404, Body.text "`id` not found", none⟩, items) := by
  have hc : id < 0 ∨ id > (items.length : Int) - 1 := by omega
  refine ⟨?_, ?_, by simp [wireBody], ?_, ?_⟩ <;>
    simp [getTodoItem, getTodoItemExists, updateTodoItem, deleteTodoItem,
      hid, if_pos hc]

/-- Claim C7 witness: index 0 on the empty collection and index 2 on a
two-item collection both answer 404. -/
theorem out_of_range_404_witness :
    getTodoItem "0" ([] : List TodoItem) =
      ⟨404, Body.text "`id` not found", none⟩ ∧
    deleteTodoItem "2" [⟨"a", false⟩, ⟨"b", true⟩] =
      (⟨404, Body.text "`id` not found", none⟩, [⟨"a", false⟩, ⟨"b", true⟩]) := by
  exact ⟨(out_of_range_404 "0" [] 0 none (by decide) (by decide)).1,
    (out_of_range_404 "2" [⟨"a", false⟩, ⟨"b", true⟩] 2 none (by decide)
      (by decide)).2.2.2.2⟩

/-- Claim C5: Delete at a valid index `i` answers 200, shortens the
collection by one, keeps every item below `i` in place and shifts every
item above `i` down by one. -/
theorem delete_shifts (idStr : String) (items : List TodoItem) (id : Int)
    (hid : Atoi idStr = some id) (h0 : 0 ≤ id) (hlt : id.toNat < items.length) :
    (deleteTodoItem idStr items).1.status = 200 ∧
    (deleteTodoItem idStr items).2.length = items.length - 1 ∧
    (∀ j, j < id.toNat →
      (deleteTodoItem idStr items).2.getD j defaultItem =
        items.getD j defaultItem) ∧
    (∀ j, id.toNat < j → j < items.length →
      (deleteTodoItem idStr items).2.getD (j - 1) defaultItem =
        items.getD j defaultItem) := by
  have hcond : ¬(id < 0 ∨ id > (items.length : Int) - 1) := by omega
  refine ⟨by simp [deleteTodoItem, hid, if_neg hcond], ?_, ?_, ?_⟩
  · simp [deleteTodoItem, hid, if_neg hcond]
    omega
  · intro j hj
    simp only [deleteTodoItem, hid, if_neg hcond]
    rw [getD_eq_getElem?, getD_eq_getElem?,
      List.getElem?_append_left (by simp [List.length_take]; omega)]
    simp [List.getElem?_take, hj]
  · intro j hj hjl
    simp only [deleteTodoItem, hid, if_neg hcond]
    have hlen : (items.take id.toNat).length = id.toNat := by simp; omega
    have hidx : id.toNat + 1 + (j - 1 - id.toNat) = j := by omega
    rw [getD_eq_getElem?, getD_eq_getElem?,
      List.getElem?_append_right (by rw [hlen]; omega), hlen,
      List.getElem?_drop, hidx]

/-- Claim C5 witness: deleting index 1 of a three-item collection keeps
index 0 and moves the item from index 2 to index 1. -/
theorem delete_shifts_witness :
    (deleteTodoItem "1" [⟨"a", false⟩, ⟨"b", true⟩, ⟨"c", false⟩]).1.status
      = 200 ∧
    (deleteTodoItem "1" [⟨"a", false⟩, ⟨"b", true⟩, ⟨"c", false⟩]).2.length
      = 2 ∧
    (deleteTodoItem "1"
        [⟨"a", false⟩, ⟨"b", true⟩, ⟨"c", false⟩]).2.getD 0 defaultItem
      = ⟨"a", false⟩ ∧
    (deleteTodoItem "1"
        [⟨"a", false⟩, ⟨"b", true⟩, ⟨"c", false⟩]).2.getD 1 defaultItem
      = ⟨"c", false⟩ := by
  have h := delete_shifts "1" [⟨"a", false⟩, ⟨"b", true⟩, ⟨"c", false⟩] 1
    (by decide) (by decide) (by decide)
  exact ⟨h.1, h.2.1, by simpa using h.2.2.1 0 (by decide),
    by simpa using h.2.2.2 2 (by decide) (by decide)⟩

/-- Claim C10: a successful Replace keeps the collection length, leaves
every other index untouched, and overwrites exactly the item at `id`
with the submitted pair. -/
theorem replace_frame (host idStr : String) (f : Form) (items : List TodoItem)
    (id : Int) (done : Bool)
    (hid : Atoi idStr = some id) (h0 : 0 ≤ id) (hlt : id.toNat < items.length)
    (hdone : ParseBool (FormValue f "done") = some done) :
    (replaceTodoItem host idStr (some f) items).1.status = 200 ∧
    (replaceTodoItem host idStr (some f) items).2 =
      items.set id.toNat ⟨FormValue f "content", done⟩ ∧
    (replaceTodoItem host idStr (some f) items).2.length = items.length ∧
    (∀ j, j ≠ id.toNat →
      (replaceTodoItem host idStr (some f) items).2.getD j defaultItem =
        items.getD j defaultItem) ∧
    (replaceTodoItem host idStr (some f) items).2.getD id.toNat defaultItem =
      ⟨FormValue f "content", done⟩ := by
  have hcond : ¬(id < 0 ∨ id > (items.length : Int) - 1) := by omega
  refine ⟨by simp [replaceTodoItem, hid, hdone, if_neg hcond],
    by simp [replaceTodoItem, hid, hdone, if_neg hcond],
    by simp [replaceTodoItem, hid, hdone, if_neg hcond], ?_, ?_⟩
  · intro j hj
    simp only [replaceTodoItem, hid, hdone, if_neg hcond]
    rw [getD_eq_getElem?, getD_eq_getElem?,
      List.getElem?_set_ne (Ne.symm hj)]
  · simp only [replaceTodoItem, hid, hdone, if_neg hcond]
    rw [getD_eq_getElem?]
    simp [List.getElem?_set_self, hlt]

/-- Claim C10 witness: replacing index 0 of a two-item collection leaves
index 1 alone. -/
theorem replace_frame_witness :
    (replaceTodoItem "h" "0" (some [("content", "x"), ("done", "true")])
        [⟨"a", false⟩, ⟨"b", true⟩]).2 = [⟨"x", true⟩, ⟨"b", true⟩] ∧
    (replaceTodoItem "h" "0" (some [("content", "x"), ("done", "true")])
        [⟨"a", false⟩, ⟨"b", true⟩]).2.getD 1 defaultItem = ⟨"b", true⟩ := by
  have h := replace_frame "h" "0" [("content", "x"), ("done", "true")]
    [⟨"a", false⟩, ⟨"b", true⟩] 0 true (by decide) (by decide) (by decide)
    (by decide)
  exact ⟨by simpa using h.2.1, by simpa using h.2.2.2.1 1 (by decide)⟩

/-- Claim C6: at a valid index, a partial Update leaves an omitted or
empty field at its prior value: with `content` empty the item keeps its
`Content` whatever happens to `done`; with `done` omitted the item keeps
its `Done` and only a non-empty `content` is written; supplying only a
parsable `done` rewrites just the `Done` field. -/
theorem update_preserves_omitted (idStr : String) (f : Form)
    (items : List TodoItem) (id : Int)
    (hid : Atoi idStr = some id) (h0 : 0 ≤ id) (hlt : id.toNat < items.length) :
    (FormValue f "content" = "" →
      ((updateTodoItem idStr (some f) items).2.getD id.toNat defaultItem).Content
        = (items.getD id.toNat defaultItem).Content) ∧
    (FormValue f "done" = "" →
      updateTodoItem idStr (some f) items =
        (⟨200, Body.empty, none⟩,
          if FormValue f "content" ≠ "" then
            items.set id.toNat
              { items.getD id.toNat defaultItem with
                  Content := FormValue f "content" }
          else items) ∧
      ((updateTodoItem idStr (some f) items).2.getD id.toNat defaultItem).Done
        = (items.getD id.toNat defaultItem).Done) ∧
    (∀ done, FormValue f "content" = "" →
      ParseBool (FormValue f "done") = some done →
      updateTodoItem idStr (some f) items =
        (⟨200, Body.empty, none⟩,
          items.set id.toNat
            { items.getD id.toNat defaultItem with Done := done })) := by
  have hcond : ¬(id < 0 ∨ id > (items.length : Int) - 1) := by omega
  refine ⟨?_, ?_, ?_⟩
  · intro hc
    by_cases hd : FormValue f "done" = ""
    · simp [updateTodoItem, hid, if_neg hcond, hc, hd]
    · cases hp : ParseBool (FormValue f "done") with
      | none => simp [updateTodoItem, hid, if_neg hcond, hc, hd, hp]
      | some done =>
        simp [updateTodoItem, hid, if_neg hcond, hc, hd, hp,
          getD_eq_getElem?, List.getElem?_set_self, hlt]
  · intro hd
    by_cases hc : FormValue f "content" = ""
    · exact ⟨by simp [updateTodoItem, hid, if_neg hcond, hd, hc],
        by simp [updateTodoItem, hid, if_neg hcond, hd, hc]⟩
    · exact ⟨by simp [updateTodoItem, hid, if_neg hcond, hd, hc],
        by simp [updateTodoItem, hid, if_neg hcond, hd, hc,
          getD_eq_getElem?, List.getElem?_set_self, hlt]⟩
  · intro done hc hp
    have hd : FormValue f "done" ≠ "" := by
      intro h
      rw [h] at hp
      exact Option.noConfusion hp
    simp [updateTodoItem, hid, if_neg hcond, hc, hd, hp]

/-- Claim C6 witness: `done=true` alone keeps the content `keep`;
`content=new` alone keeps `Done = true`. -/
theorem update_preserves_omitted_witness :
    ((updateTodoItem "0" (some [("done", "true")]) [⟨"keep", false⟩]).2.getD 0
        defaultItem).Content = "keep" ∧
    updateTodoItem "0" (some [("done", "true")]) [⟨"keep", false⟩] =
      (⟨200, Body.empty, none⟩, [⟨"keep", true⟩]) ∧
    ((updateTodoItem "0" (some [("content", "new")]) [⟨"x", true⟩]).2.getD 0
        defaultItem).Done = true := by
  have h1 := update_preserves_omitted "0" [("done", "true")] [⟨"keep", false⟩]
    0 (by decide) (by decide) (by decide)
  have h2 := update_preserves_omitted "0" [("content", "new")] [⟨"x", true⟩]
    0 (by decide) (by decide) (by decide)
  exact ⟨(h1.1 (by decide)).trans (by decide),
    (h1.2.2 true (by decide) (by decide)).trans (by decide),
    ((h2.2.1 (by decide)).2).trans (by decide)⟩

/-- Claim C1 counterexample: an Update carrying `content=new` together
with the malformed `done=zzz` answers 400 but has already overwritten
the item's `Content`: the collection is not left as it was. -/
theorem update_partial_mutation_cex :
    (updateTodoItem "0" (some [("content", "new"), ("done", "zzz")])
        [⟨"old", false⟩]).1.status = 400 ∧
    (updateTodoItem "0" (some [("content", "new"), ("done", "zzz")])
        [⟨"old", false⟩]).2 = [⟨"new", false⟩] ∧
    ¬ (updateTodoItem "0" (some [("content", "new"), ("done", "zzz")])
        [⟨"old", false⟩]).2 = [⟨"old", false⟩] := by decide

/-- Claim C1 as amended: every validation failure of Create, Replace,
Update and Delete answers 4xx; Create, Replace and Delete leave the
collection untouched on every such failure, and Update does too except
on the malformed-`done` path reached with a valid id and form, where a
non-empty `content` has already been written to the item before the
`done` check fails. -/
theorem validation_failure_effects (host idStr : String) (form : Option Form)
    (items : List TodoItem) :
    (400 ≤ (createTodoItem host form items).1.status →
      (createTodoItem host form items).1.status < 500 ∧
      (createTodoItem host form items).2 = items) ∧
    (400 ≤ (replaceTodoItem host idStr form items).1.status →
      (replaceTodoItem host idStr form items).1.status < 500 ∧
      (replaceTodoItem host idStr form items).2 = items) ∧
    (400 ≤ (deleteTodoItem idStr items).1.status →
      (deleteTodoItem idStr items).1.status < 500 ∧
      (deleteTodoItem idStr items).2 = items) ∧
    (400 ≤ (updateTodoItem idStr form items).1.status →
      (updateTodoItem idStr form items).1.status < 500) ∧
    (Atoi idStr = none →
      updateTodoItem idStr form items =
        (⟨400, Body.text "`id` must be of type int", none⟩, items)) ∧
    (∀ id : Int, Atoi idStr = some id → (id < 0 ∨ (items.length : Int) ≤ id) →
      updateTodoItem idStr form items =
        (⟨404, Body.text "`id` not found", none⟩, items)) ∧
    (∀ id : Int, Atoi idStr = some id → 0 ≤ id → id.toNat < items.length →
      form = none →
      updateTodoItem idStr form items =
        (⟨400, Body.text "invalid form", none⟩, items)) ∧
    (∀ id : Int, ∀ f : Form, Atoi idStr = some id → 0 ≤ id →
      id.toNat < items.length → form = some f →
      FormValue f "done" ≠ "" → ParseBool (FormValue f "done") = none →
      updateTodoItem idStr form items =
        (⟨400, Body.text "`done` must be of type bool", none⟩,
          if FormValue f "content" ≠ "" then
            items.set id.toNat
              { items.getD id.toNat defaultItem with
                  Content := FormValue f "content" }
          else items)) := by
  refine ⟨?_, ?_, ?_, ?_, ?_, ?_, ?_, ?_⟩
  · rcases form with _ | f
    · simp [createTodoItem]
    · cases hp : ParseBool (FormValue f "done") <;> simp [createTodoItem, hp]
  · cases hid : Atoi idStr with
    | none => simp [replaceTodoItem, hid]
    | some id =>
      by_cases hb : id < 0 ∨ id > (items.length : Int) - 1
      · simp [replaceTodoItem, hid, if_pos hb]
      · rcases form with _ | f
        · simp [replaceTodoItem, hid, if_neg hb]
        · cases hp : ParseBool (FormValue f "done") <;>
            simp [replaceTodoItem, hid, if_neg hb, hp]
  · cases hid : Atoi idStr with
    | none => simp [deleteTodoItem, hid]
    | some id =>
      by_cases hb : id < 0 ∨ id > (items.length : Int) - 1
      · simp [deleteTodoItem, hid, if_pos hb]
      · simp [deleteTodoItem, hid, if_neg hb]
  · cases hid : Atoi idStr with
    | none => simp [updateTodoItem, hid]
    | some id =>
      by_cases hb : id < 0 ∨ id > (items.length : Int) - 1
      · simp [updateTodoItem, hid, if_pos hb]
      · rcases form with _ | f
        · simp [updateTodoItem, hid, if_neg hb]
        · by_cases hd : FormValue f "done" = ""
          · simp [updateTodoItem, hid, if_neg hb, hd]
          · cases hp : ParseBool (FormValue f "done") <;>
              simp [updateTodoItem, hid, if_neg hb, hd, hp]
  · intro h
    simp [updateTodoItem, h]
  · intro id hsome hout
    simp [updateTodoItem, hsome,
      if_pos (show id < 0 ∨ id > (items.length : Int) - 1 by omega)]
  · intro id hsome h0 hlt hform
    subst hform
    simp [updateTodoItem, hsome,
      if_neg (show ¬(id < 0 ∨ id > (items.length : Int) - 1) by omega)]
  · intro id f hsome h0 hlt hform hd hp
    subst hform
    by_cases hc : FormValue f "content" = "" <;>
      simp [updateTodoItem, hsome, hd, hp, hc,
        if_neg (show ¬(id < 0 ∨ id > (items.length : Int) - 1) by omega)]

/-- Claim C1 witness: a Create with an unparsable form leaves the empty
collection empty, and the amended Update clause evaluated at the
counterexample input shows the already-written `Content`. -/
theorem validation_failure_effects_witness :
    ((createTodoItem "h" none ([] : List TodoItem)).1.status < 500 ∧
      (createTodoItem "h" none ([] : List TodoItem)).2 = []) ∧
    updateTodoItem "0" (some [("content", "new"), ("done", "zzz")])
        [⟨"old", false⟩] =
      (⟨400, Body.text "`done` must be of type bool", none⟩,
        [⟨"new", false⟩]) := by
  refine ⟨(validation_failure_effects "h" "x" none []).1 (by decide), ?_⟩
  have h := (validation_failure_effects "h" "0"
      (some [("content", "new"), ("done", "zzz")])
      [⟨"old", false⟩]).2.2.2.2.2.2.2 0 [("content", "new"), ("done", "zzz")]
    (by decide) (by decide) (by decide) rfl (by decide) (by decide)
  exact h.trans (by decide)

/-- Claim C8 counterexample: the segment `-1` parses under
`strconv.Atoi`, so Read answers the bounds-check 404 `id` not found,
not the claimed 400 `id` must be of type int. -/
theorem neg_id_cex :
    Atoi "-1" = some (-1) ∧
    getTodoItem "-1" ([] : List TodoItem) =
      ⟨404, Body.text "`id` not found", none⟩ ∧
    ¬ (getTodoItem "-1" ([] : List TodoItem)).status = 400 ∧
    ¬ (getTodoItem "-1" ([] : List TodoItem)).body =
        Body.text "`id` must be of type int" := by decide

/-- Claim C8 as amended: an `{id}` segment that does not parse as an
integer gets 400 `id` must be of type int from every `{id}` handler
before any bounds check — the collection is irrelevant and unchanged —
while a negative integer segment parses and instead receives the
bounds-check 404. -/
theorem id_parse_failure_400 (host idStr : String) (form : Option Form)
    (items : List TodoItem) :
    (Atoi idStr = none →
      getTodoItem idStr items =
        ⟨400, Body.text "`id` must be of type int", none⟩ ∧
      getTodoItemExists idStr items =
        ⟨400, Body.text "`id` must be of type int", none⟩ ∧
      replaceTodoItem host idStr form items =
        (⟨400, Body.text "`id` must be of type int", none⟩, items) ∧
      updateTodoItem idStr form items =
        (⟨400, Body.text "`id` must be of type int", none⟩, items) ∧
      deleteTodoItem idStr items =
        (⟨400, Body.text "`id` must be of type int", none⟩, items)) ∧
    (∀ id : Int, Atoi idStr = some id → id < 0 →
      getTodoItem idStr items = ⟨404, Body.text "`id` not found", none⟩) := by
  constructor
  · intro h
    refine ⟨?_, ?_, ?_, ?_, ?_⟩ <;>
      simp [getTodoItem, getTodoItemExists, replaceTodoItem, updateTodoItem,
        deleteTodoItem, h]
  · intro id hsome hneg
    simp [getTodoItem, hsome, if_pos (Or.inl hneg)]

/-- Claim C8 witness: `abc` cannot parse and gets the 400; `-1` parses
and gets the 404. -/
theorem id_parse_failure_400_witness :
    getTodoItem "abc" ([] : List TodoItem) =
      ⟨400, Body.text "`id` must be of type int", none⟩ ∧
    getTodoItem "-1" [⟨"a", true⟩] =
      ⟨404, Body.text "`id` not found", none⟩ := by
  exact ⟨((id_parse_failure_400 "h" "abc" none []).1 (by decide)).1,
    (id_parse_failure_400 "h" "-1" none [⟨"a", true⟩]).2 (-1) (by decide)
      (by decide)⟩

end ReadySet
